import Mathlib

/-!
Shallow embedding of the byob-todo-frontend client (src/src/App.tsx),
a SolidJS single-page todo client that talks to a user-supplied REST
backend.  Pure request construction, the mutation handlers, the query
parameter gate and the render logic are translated into executable Lean
definitions; the relevant solid-js runtime behaviour that the component
invokes (createResource's stale-response guard, the For fallback rule,
ErrorBoundary's catching scope) is modelled explicitly where a claim
depends on it, each such definition carrying a doc comment naming the
runtime rule it embeds.
-/

namespace ByobTodo

/-- The done-filter union type, from `type DoneFilter = 'all' | 'done' | 'notdone'`
(src/src/App.tsx:64). -/
inductive DoneFilter
  | all
  | done
  | notdone
deriving DecidableEq, Repr

/-- The todo entity `{title: string, done: boolean}` exchanged with the
backend (src/src/App.tsx, API table in the spec). -/
structure Todo where
  title : String
  done : Bool
deriving DecidableEq, Repr

/-- HTTP-level error returned by the typed client as the `error` half of
its `\x7bdata, error\x7d` result; the client code only tests it for
presence, so it is abstracted to a status code. -/
structure ApiError where
  status : Nat
deriving DecidableEq, Repr

/-- HTTP method of a request issued through the typed client. -/
inductive Method
  | GET
  | POST
  | PUT
  | DELETE
deriving DecidableEq, Repr

/-- A request as the component hands it to the typed client: method, path
template, optional `\x7btitle\x7d` path parameter, optional `done` query
parameter, optional body. -/
structure Request where
  method : Method
  path : String
  pathTitle : Option String
  queryDone : Option Bool
  body : Option Todo
deriving DecidableEq, Repr

/-- The `done` query parameter computed by the list fetcher
(src/src/App.tsx:71-76): `let done: boolean | undefined` stays undefined
unless the filter is `'done'` (then `true`) or `'notdone'` (then `false`). -/
def fetchDoneParam (filterValue : DoneFilter) : Option Bool :=
  if filterValue = DoneFilter.done then some true
  else if filterValue = DoneFilter.notdone then some false
  else none

/-- The list request `client.GET('/', { params: { query: { done } } })`
built by the resource fetcher (src/src/App.tsx:77-83). -/
def listRequest (filterValue : DoneFilter) : Request :=
  { method := Method.GET
    path := "/"
    pathTitle := none
    queryDone := fetchDoneParam filterValue
    body := none }

/-- Tail of the resource fetcher (src/src/App.tsx:84-87): `if (error)
throw error; return data` — an erroring response is rethrown, a
successful response's data is returned unchanged. -/
def listFetch (resp : Except ApiError (List Todo)) : Except ApiError (List Todo) :=
  match resp with
  | Except.error e => Except.error e
  | Except.ok d => Except.ok d

/-- The component's two independent reactive cells: `newTitle` from
`createSignal('')` (src/src/App.tsx:68) and `filter` from
`createSignal<DoneFilter>('all')` (src/src/App.tsx:69). -/
structure ViewState where
  newTitle : String
  filter : DoneFilter
deriving DecidableEq, Repr

/-- Observable effect of one mutation-handler invocation: the view state
after the handler ran, how many times it called `refetch()`, and the
error it threw, if any. -/
structure HandlerResult where
  state : ViewState
  refetches : Nat
  thrown : Option ApiError
deriving DecidableEq, Repr

/-- The POST request built by `addTodo` (src/src/App.tsx:91-96):
`client.POST('/', { body: { title: newTitle(), done: false } })`. -/
def addTodoRequest (s : ViewState) : Request :=
  { method := Method.POST
    path := "/"
    pathTitle := none
    queryDone := none
    body := some { title := s.newTitle, done := false } }

/-- Control flow of `addTodo` after the POST response arrives
(src/src/App.tsx:97-101): `if (error) throw error; refetch(); setTitle('')`. -/
def addTodo (s : ViewState) (resp : Except ApiError Todo) : HandlerResult :=
  match resp with
  | Except.error e => { state := s, refetches := 0, thrown := some e }
  | Except.ok _ =>
      { state := { s with newTitle := "" }, refetches := 1, thrown := none }

/-- The PUT request built by `toggleTodo` (src/src/App.tsx:104-111):
`client.PUT('/{title}', { params: { path: { title }, query: { done } } })`. -/
def toggleTodoRequest (title : String) (done : Bool) : Request :=
  { method := Method.PUT
    path := "/{title}"
    pathTitle := some title
    queryDone := some done
    body := none }

/-- Control flow of `toggleTodo` after the PUT response arrives
(src/src/App.tsx:112-115): `if (error) throw error; refetch()`; the
handler touches neither signal. -/
def toggleTodo (s : ViewState) (resp : Except ApiError Todo) : HandlerResult :=
  match resp with
  | Except.error e => { state := s, refetches := 0, thrown := some e }
  | Except.ok _ => { state := s, refetches := 1, thrown := none }

/-- The DELETE request built by `deleteTodo` (src/src/App.tsx:118-122):
`client.DELETE('/{title}', { params: { path: { title } } })`. -/
def deleteTodoRequest (title : String) : Request :=
  { method := Method.DELETE
    path := "/{title}"
    pathTitle := some title
    queryDone := none
    body := none }

/-- Control flow of `deleteTodo` after the DELETE response arrives
(src/src/App.tsx:123-126): `if (error) throw error; refetch()`; the
handler touches neither signal. -/
def deleteTodo (s : ViewState) (resp : Except ApiError Unit) : HandlerResult :=
  match resp with
  | Except.error e => { state := s, refetches := 0, thrown := some e }
  | Except.ok _ => { state := s, refetches := 1, thrown := none }

/-- Submission path of the add-todo form (src/src/App.tsx:189-199): the
title input carries the HTML `required` attribute and holds the current
`newTitle` value, so constraint validation blocks submission while the
value is the empty string; only a non-empty value reaches `addTodo`,
which then issues `addTodoRequest`.  The `required` semantics (an empty
value blocks form submission) is the HTML constraint-validation rule the
source relies on. -/
def submitAddTodo (s : ViewState) : Option Request :=
  if s.newTitle = "" then none else some (addTodoRequest s)

/-- Split a character list at every occurrence of `sep` (helper for the
query-string model; structural so that concrete inputs evaluate). -/
def splitChar (sep : Char) : List Char → List (List Char)
  | [] => [[]]
  | c :: cs =>
      match splitChar sep cs with
      | [] => if c = sep then [[], []] else [[c]]
      | r :: rs => if c = sep then [] :: r :: rs else (c :: r) :: rs

/-- Split a query-string segment at its first equals sign into key and
value; a segment with no equals sign is all key with an empty value. -/
def splitFirstEq : List Char → List Char × List Char
  | [] => ([], [])
  | c :: cs =>
      if c = '=' then ([], cs)
      else
        let kv := splitFirstEq cs
        (c :: kv.1, kv.2)

/-- `new URLSearchParams(location.search).get(name)` as the gate uses it
(src/src/App.tsx:206): a single leading question mark is dropped, the
query string splits on ampersands, each non-empty segment splits at its
first equals sign (a segment with no equals sign maps its whole text to
the empty value), and `get` returns the first value recorded for the
name, or null (here: `none`) when the name is absent.  Percent-decoding
is the identity on every input considered here and is elided. -/
def searchParamsGet (search : String) (name : String) : Option String :=
  let cs := match search.toList with
    | '?' :: rest => rest
    | l => l
  let entries := (splitChar '&' cs).filterMap fun p =>
    if p = [] then none else some (splitFirstEq p)
  (entries.find? fun kv => kv.1 = name.toList).map fun kv => String.mk kv.2

/-- What the top-level `App` component renders. -/
inductive AppView
  | backendForm
  | todoApp (baseUrl : String)
deriving DecidableEq, Repr

/-- The gate in `App` (src/src/App.tsx:205-212): read the `backend` query
parameter and render `TodoApp` behind `Show when={backend !== null}`,
with `BackendForm` as the fallback. -/
def appRender (search : String) : AppView :=
  match searchParamsGet search "backend" with
  | none => AppView.backendForm
  | some backend => AppView.todoApp backend

/-- The initial filter signal of `TodoApp`:
`createSignal<DoneFilter>('all')` (src/src/App.tsx:69). -/
def initialFilter : DoneFilter := DoneFilter.all

/-- Requests issued on mount by each view: `BackendForm` creates no
client and fetches nothing; mounting `TodoApp` runs `createResource`
(src/src/App.tsx:70), which invokes the fetcher once with the initial
filter value, so exactly the list request for `'all'` is issued. -/
def initialRequests : AppView → List Request
  | AppView.backendForm => []
  | AppView.todoApp _ => [listRequest initialFilter]

/-- What the list area shows. -/
inductive ListAreaView
  | fallbackNoTodos
  | populated (todos : List Todo)
deriving DecidableEq, Repr

/-- The list area `<For each={data()} fallback={<div>No todos</div>}>`
(src/src/App.tsx:156-187).  Per the solid-js `For` rule the fallback
renders whenever `each` is falsy or an empty array: `data()` is
undefined while no fetch has resolved yet (there is no `Suspense` or
`data.loading` branch in the component), and an empty fetched list also
renders the fallback; a non-empty fetched list renders one row per todo. -/
def renderListArea (d : Option (List Todo)) : ListAreaView :=
  match d with
  | none => ListAreaView.fallbackNoTodos
  | some [] => ListAreaView.fallbackNoTodos
  | some l => ListAreaView.populated l

/-- State of the list resource, modelled from the solid-js
`createResource` runtime that src/src/App.tsx:70 invokes: the runtime
remembers which fetch promise is the current one and `loadEnd` applies a
resolved fetch only when its promise is still the tracked one (the
`pr === p` guard), which is a generation-token check.  `latest` is the
token of the most recently issued fetch and `value` the last applied
snapshot. -/
structure ResourceState where
  latest : Nat
  value : Option (List Todo)
deriving DecidableEq, Repr

/-- A filter change retriggers the fetcher: a fresh fetch is issued and
becomes the tracked one; its token is the new `latest`. -/
def issueFetch (s : ResourceState) : ResourceState :=
  { s with latest := s.latest + 1 }

/-- Arrival of the response to the fetch with token `t`: it replaces the
snapshot only if that fetch is still the tracked one, otherwise it is
discarded (the `pr === p` guard in `createResource`). -/
def applyResponse (s : ResourceState) (t : Nat) (result : List Todo) : ResourceState :=
  if t = s.latest then { s with value := some result } else s

/-- What the region wrapped by the error boundary shows. -/
inductive BoundaryView
  | content
  | errorLoadingData
deriving DecidableEq, Repr

/-- The `ErrorBoundary fallback={<div>Error loading data</div>}`
(src/src/App.tsx:136), modelled from the solid-js runtime rule it relies
on: the boundary catches errors thrown while rendering its children —
in particular reading `data()` when the resource holds a rejection
rethrows it during rendering — and then shows the static fallback. -/
def renderBoundary (resource : Except ApiError (Option (List Todo))) : BoundaryView :=
  match resource with
  | Except.error _ => BoundaryView.errorLoadingData
  | Except.ok _ => BoundaryView.content

/-- View shown after a UI event ran one of the mutation handlers,
modelled from how the source wires them: `addTodo`, `toggleTodo` and
`deleteTodo` are async functions attached as plain event listeners
(src/src/App.tsx:171-173, 179, 189) whose returned promises nothing
awaits, so per the host rules an error they throw becomes an unhandled
promise rejection outside the rendering of the boundary's children; the
region re-renders from the resource alone and the handler's `thrown`
error never reaches the boundary. -/
def viewAfterMutationEvent (resource : Except ApiError (Option (List Todo)))
    (_handlerOutcome : HandlerResult) : BoundaryView :=
  renderBoundary resource

end ByobTodo

namespace ByobTodo

/-- C1: for each filter value the list fetcher builds GET '/' with the
boolean `done` query parameter undefined, true, false respectively, and
returns the response data unchanged on success. -/
theorem C1_list_request_per_filter :
    (∀ f : DoneFilter,
      (listRequest f).method = Method.GET ∧ (listRequest f).path = "/") ∧
    (listRequest DoneFilter.all).queryDone = none ∧
    (listRequest DoneFilter.done).queryDone = some true ∧
    (listRequest DoneFilter.notdone).queryDone = some false ∧
    ∀ d : List Todo, listFetch (Except.ok d) = Except.ok d := by
  refine ⟨?_, rfl, rfl, rfl, ?_⟩
  · intro f
    cases f <;> exact ⟨rfl, rfl⟩
  · intro d
    rfl

/-- C4: on a successful POST the create handler resets `newTitle` to the
empty string and issues exactly one refetch; on a failed POST `newTitle`
keeps its prior value and no refetch is issued. -/
theorem C4_add_todo_effects :
    ∀ s : ViewState,
      (∀ t : Todo,
        (addTodo s (Except.ok t)).state.newTitle = "" ∧
        (addTodo s (Except.ok t)).refetches = 1) ∧
      ∀ e : ApiError,
        (addTodo s (Except.error e)).state.newTitle = s.newTitle ∧
        (addTodo s (Except.error e)).refetches = 0 := by
  intro s
  exact ⟨fun t => ⟨rfl, rfl⟩, fun e => ⟨rfl, rfl⟩⟩

/-- C7: for every title and target done value, the toggle handler issues
the single PUT request path-addressed by the title with query parameter
done set to the target value, triggers exactly one refetch on success,
and none on failure. -/
theorem C7_toggle_request_and_refetch :
    ∀ (title : String) (d : Bool),
      toggleTodoRequest title d =
        { method := Method.PUT
          path := "/{title}"
          pathTitle := some title
          queryDone := some d
          body := none } ∧
      ∀ s : ViewState,
        (∀ t : Todo, (toggleTodo s (Except.ok t)).refetches = 1) ∧
        ∀ e : ApiError, (toggleTodo s (Except.error e)).refetches = 0 := by
  intro title d
  exact ⟨rfl, fun s => ⟨fun t => rfl, fun e => rfl⟩⟩

/-- C8: a request leaves the create form only when the title is
non-empty (the required input blocks the empty value client-side before
any request is sent), and every POST body sent is the current `newTitle`
with done set to false, whatever the filter. -/
theorem C8_create_validation_and_body :
    ∀ (s : ViewState) (r : Request),
      submitAddTodo s = some r →
      s.newTitle ≠ "" ∧
      r.method = Method.POST ∧
      r.path = "/" ∧
      r.body = some { title := s.newTitle, done := false } := by
  intro s r h
  unfold submitAddTodo at h
  by_cases hs : s.newTitle = ""
  · rw [if_pos hs] at h
    exact absurd h (by simp)
  · rw [if_neg hs] at h
    injection h with h
    subst h
    exact ⟨hs, rfl, rfl, rfl⟩

/-- Witness for C8 at the concrete state with title "Buy milk" and
filter notdone. -/
theorem C8_create_validation_and_body_witness :
    submitAddTodo { newTitle := "Buy milk", filter := DoneFilter.notdone } =
      some (addTodoRequest { newTitle := "Buy milk", filter := DoneFilter.notdone }) ∧
    ViewState.newTitle { newTitle := "Buy milk", filter := DoneFilter.notdone } ≠ "" ∧
    Request.body (addTodoRequest { newTitle := "Buy milk", filter := DoneFilter.notdone }) =
      some { title := "Buy milk", done := false } := by
  have h := C8_create_validation_and_body
    { newTitle := "Buy milk", filter := DoneFilter.notdone }
    (addTodoRequest { newTitle := "Buy milk", filter := DoneFilter.notdone })
    (by decide)
  exact ⟨by decide, h.1, h.2.2.2⟩

/-- C10: the toggle and delete handlers leave both view-state cells
(`newTitle` and `filter`) unchanged whether the request succeeds or
fails. -/
theorem C10_toggle_delete_preserve_signals :
    ∀ (s : ViewState) (rput : Except ApiError Todo) (rdel : Except ApiError Unit),
      (toggleTodo s rput).state.newTitle = s.newTitle ∧
      (toggleTodo s rput).state.filter = s.filter ∧
      (deleteTodo s rdel).state.newTitle = s.newTitle ∧
      (deleteTodo s rdel).state.filter = s.filter := by
  intro s rput rdel
  refine ⟨?_, ?_, ?_, ?_⟩ <;> first
    | (cases rput <;> rfl)
    | (cases rdel <;> rfl)

/-- C6: with no `backend` entry in the query parameters the app renders
the configuration form and issues no fetch; with a `backend` entry it
renders the todo view and its initial request is GET '/' with the done
parameter omitted. -/
theorem C6_backend_gate :
    ∀ search : String,
      (searchParamsGet search "backend" = none →
        appRender search = AppView.backendForm ∧
        initialRequests (appRender search) = []) ∧
      ∀ b : String,
        searchParamsGet search "backend" = some b →
        appRender search = AppView.todoApp b ∧
        initialRequests (appRender search) =
          [{ method := Method.GET
             path := "/"
             pathTitle := none
             queryDone := none
             body := none }] := by
  intro search
  constructor
  · intro h
    have ha : appRender search = AppView.backendForm := by
      unfold appRender
      rw [h]
    exact ⟨ha, by rw [ha]; rfl⟩
  · intro b h
    have ha : appRender search = AppView.todoApp b := by
      unfold appRender
      rw [h]
    exact ⟨ha, by rw [ha]; rfl⟩

/-- Witness for C6 at the concrete page URLs with empty query string and
with query string `?backend=http://localhost:8000`. -/
theorem C6_backend_gate_witness :
    searchParamsGet "" "backend" = none ∧
    appRender "" = AppView.backendForm ∧
    initialRequests (appRender "") = [] ∧
    searchParamsGet "?backend=http://localhost:8000" "backend" =
      some "http://localhost:8000" ∧
    appRender "?backend=http://localhost:8000" =
      AppView.todoApp "http://localhost:8000" ∧
    initialRequests (appRender "?backend=http://localhost:8000") =
      [{ method := Method.GET
         path := "/"
         pathTitle := none
         queryDone := none
         body := none }] := by
  have h1 := (C6_backend_gate "").1 (by decide)
  have h2 := (C6_backend_gate "?backend=http://localhost:8000").2
    "http://localhost:8000" (by decide)
  exact ⟨by decide, h1.1, h1.2, by decide, h2.1, h2.2⟩

/-- C9: with the query string `?backend=` the gate still renders the
todo view, with the empty string as the client base URL, because the
test is only that the parameter is not null. -/
theorem C9_empty_backend_value_passes_gate :
    searchParamsGet "?backend=" "backend" = some "" ∧
    appRender "?backend=" = AppView.todoApp "" := by
  exact ⟨by decide, by decide⟩

/-- C5 counterexample: the list area renders identically while no data
has arrived yet (resource value undefined) and when the fetched result
is the empty list — both show the 'No todos' fallback — so the claimed
loading state distinct from the empty state does not exist. -/
theorem C5_loading_render_equals_empty_render :
    renderListArea none = renderListArea (some []) ∧
    renderListArea none = ListAreaView.fallbackNoTodos := by
  exact ⟨rfl, rfl⟩

/-- C5 amended: the list area has two mutually exclusive render states —
the 'No todos' fallback, shown both while no data has arrived yet and
when the fetched result is an empty list, and a populated state
rendering the list, shown exactly when the fetched list is non-empty. -/
theorem C5_two_render_states :
    ∀ d : Option (List Todo),
      (renderListArea d = ListAreaView.fallbackNoTodos ↔ d = none ∨ d = some []) ∧
      ∀ l : List Todo,
        renderListArea d = ListAreaView.populated l ↔ d = some l ∧ l ≠ [] := by
  intro d
  constructor
  · cases d with
    | none => simp [renderListArea]
    | some ls =>
      cases ls with
      | nil => simp [renderListArea]
      | cons a as => simp [renderListArea]
  · intro l
    cases d with
    | none => simp [renderListArea]
    | some ls =>
      cases ls with
      | nil => simp [renderListArea]
      | cons a as =>
        simp only [renderListArea, ListAreaView.populated.injEq, Option.some.injEq]
        constructor
        · intro h
          exact ⟨h, h ▸ List.cons_ne_nil a as⟩
        · intro h
          exact h.1

/-- C3: two filter changes issue fetches with tokens latest+1 and
latest+2; when the second fetch's response arrives first and the first
fetch's response arrives last, the runtime's current-promise guard
discards the stale response: the final snapshot is the second response,
the stale arrival is a no-op, and no state along the trace displays the
first response. -/
theorem C3_stale_response_never_displayed
    (s : ResourceState) (r1 r2 : List Todo)
    (h1 : s.value ≠ some r1) (h2 : r1 ≠ r2) :
    (applyResponse
        (applyResponse (issueFetch (issueFetch s))
          (issueFetch (issueFetch s)).latest r2)
        (issueFetch s).latest r1).value = some r2 ∧
    applyResponse
        (applyResponse (issueFetch (issueFetch s))
          (issueFetch (issueFetch s)).latest r2)
        (issueFetch s).latest r1 =
      applyResponse (issueFetch (issueFetch s))
        (issueFetch (issueFetch s)).latest r2 ∧
    (issueFetch s).value ≠ some r1 ∧
    (issueFetch (issueFetch s)).value ≠ some r1 ∧
    (applyResponse (issueFetch (issueFetch s))
        (issueFetch (issueFetch s)).latest r2).value ≠ some r1 := by
  have e3 : applyResponse (issueFetch (issueFetch s))
      (issueFetch (issueFetch s)).latest r2 =
      { latest := s.latest + 1 + 1, value := some r2 } := by
    simp [applyResponse, issueFetch]
  have e4 : applyResponse { latest := s.latest + 1 + 1, value := some r2 }
      (issueFetch s).latest r1 =
      { latest := s.latest + 1 + 1, value := some r2 } := by
    unfold applyResponse
    split
    · next hcond =>
      exfalso
      have hc : s.latest + 1 = s.latest + 1 + 1 := hcond
      omega
    · rfl
  refine ⟨?_, ?_, h1, h1, ?_⟩
  · rw [e3, e4]
  · rw [e3, e4]
  · rw [e3]
    simp
    exact fun h => h2 h.symm

/-- Witness for C3 at the concrete start state (no fetch applied yet)
with first response a one-item list and second response the empty list. -/
theorem C3_stale_response_never_displayed_witness :
    (ResourceState.mk 0 none).value ≠ some [Todo.mk "a" false] ∧
    [Todo.mk "a" false] ≠ ([] : List Todo) ∧
    (applyResponse
        (applyResponse (issueFetch (issueFetch (ResourceState.mk 0 none)))
          (issueFetch (issueFetch (ResourceState.mk 0 none))).latest [])
        (issueFetch (ResourceState.mk 0 none)).latest
        [Todo.mk "a" false]).value = some [] := by
  refine ⟨by decide, by decide, ?_⟩
  exact (C3_stale_response_never_displayed (ResourceState.mk 0 none)
    [Todo.mk "a" false] [] (by decide) (by decide)).1

/-- C2: at the failing input — a create submitted with title "Buy milk"
while the backend answers the POST with an HTTP 500 error and the list
resource itself is healthy — the handler does throw the error, yet the
view after the event still renders the todo content and not the static
'Error loading data' fallback: the thrown error lives in a promise
nothing awaits and never reaches the error boundary, contrary to the
claim that every mutation error replaces the region with the error
message. -/
theorem C2_mutation_error_misses_boundary :
    (addTodo (ViewState.mk "Buy milk" DoneFilter.all)
        (Except.error (ApiError.mk 500))).thrown = some (ApiError.mk 500) ∧
    viewAfterMutationEvent (Except.ok (some []))
        (addTodo (ViewState.mk "Buy milk" DoneFilter.all)
          (Except.error (ApiError.mk 500))) = BoundaryView.content ∧
    BoundaryView.content ≠ BoundaryView.errorLoadingData := by
  exact ⟨rfl, rfl, by decide⟩

end ByobTodo
